import Mathlib

/-!
Verification of the ledger aggregation core of `app.py`
(`FREQ_TO_MONTHS`, `calculate_metrics`, and the derived values
`net_worth` and `monthly_net_flow`).

The aggregator iterates over the rows of a data frame.  A row carries the
cells `Category`, `Amount`, `Currency` and `Frequency` (the `Item` column
is never read by the computation).  The code parses the amount with
`pd.to_numeric(..., errors='coerce')` and skips the row when the result is
NaN; we embed the outcome of that parse as `Option ℚ` (`none` = the cell
did not parse as a number).  All monetary arithmetic is embedded over `ℚ`
(exact decimal/rational arithmetic).
-/

/-- One row of the ledger, as read by `calculate_metrics`
(src/app.py lines 218-228).  `amount` is the result of
`pd.to_numeric(row.get('Amount', 0), errors='coerce')`: `none` stands for
NaN, i.e. a cell that failed to parse as a number. -/
structure Record where
  category : String
  amount : Option ℚ
  currency : String
  frequency : String
deriving DecidableEq, Repr

/-- The four accumulators of `calculate_metrics`
(src/app.py line 215). -/
structure Metrics where
  total_asset : ℚ
  total_liability : ℚ
  monthly_income : ℚ
  monthly_expense : ℚ
deriving DecidableEq, Repr

/-- The initial accumulator state `0; 0; 0; 0` of src/app.py line 215,
also the result returned for an empty frame (line 216). -/
def Metrics.zero : Metrics := ⟨0, 0, 0, 0⟩

/-- Componentwise addition of accumulator states (used to express the
fold as a sum of per-record contributions). -/
def Metrics.add (a b : Metrics) : Metrics :=
  ⟨a.total_asset + b.total_asset,
   a.total_liability + b.total_liability,
   a.monthly_income + b.monthly_income,
   a.monthly_expense + b.monthly_expense⟩

/-- The dictionary `FREQ_TO_MONTHS` of src/app.py lines 205-212, as the
lookup `FREQ_TO_MONTHS.get(freq)`. -/
def FREQ_TO_MONTHS (freq : String) : Option Nat :=
  if freq = "每月" then some 1
  else if freq = "Monthly" then some 1
  else if freq = "每季" then some 3
  else if freq = "Quarterly" then some 3
  else if freq = "每年" then some 12
  else if freq = "Yearly" then some 12
  else none

/-- The currency-conversion step of src/app.py lines 223-225:
`if curr == 'USD': amount *= usdtwd elif curr == 'THB': amount *= thbtwd`. -/
def convertCurrency (usdtwd thbtwd : ℚ) (curr : String) (amount : ℚ) : ℚ :=
  if curr = "USD" then amount * usdtwd
  else if curr = "THB" then amount * thbtwd
  else amount

/-- The body of the `for` loop of `calculate_metrics`
(src/app.py lines 218-241): parse the amount (skip the row on NaN),
convert the currency, then dispatch on the category, dividing Income and
Expense amounts by the month count looked up in `FREQ_TO_MONTHS`. -/
def processRow (usdtwd thbtwd : ℚ) (m : Metrics) (row : Record) : Metrics :=
  match row.amount with
  | none => m
  | some a =>
    let amount := convertCurrency usdtwd thbtwd row.currency a
    if row.category = "資產" then
      { m with total_asset := m.total_asset + amount }
    else if row.category = "負債" then
      { m with total_liability := m.total_liability + amount }
    else if row.category = "收入" then
      let months := FREQ_TO_MONTHS row.frequency
      if months = some 1 then { m with monthly_income := m.monthly_income + amount }
      else if months = some 3 then { m with monthly_income := m.monthly_income + amount / 3 }
      else if months = some 12 then { m with monthly_income := m.monthly_income + amount / 12 }
      else m
    else if row.category = "支出" then
      let months := FREQ_TO_MONTHS row.frequency
      if months = some 1 then { m with monthly_expense := m.monthly_expense + amount }
      else if months = some 3 then { m with monthly_expense := m.monthly_expense + amount / 3 }
      else if months = some 12 then { m with monthly_expense := m.monthly_expense + amount / 12 }
      else m
    else m

/-- `calculate_metrics` of src/app.py lines 214-242: fold `processRow`
over the rows in order, starting from all-zero accumulators.  (The early
return on line 216 for an empty frame coincides with the fold over the
empty list.) -/
def calculate_metrics (df : List Record) (usdtwd thbtwd : ℚ) : Metrics :=
  df.foldl (processRow usdtwd thbtwd) Metrics.zero

/-- `net_worth = t_asset - t_liability` (src/app.py line 245). -/
def net_worth (m : Metrics) : ℚ := m.total_asset - m.total_liability

/-- `monthly_net_flow = m_income - m_expense` (src/app.py line 246). -/
def monthly_net_flow (m : Metrics) : ℚ := m.monthly_income - m.monthly_expense

/-- The contribution of a single row: what `processRow` adds to the
accumulators, read off by running the loop body from the all-zero state. -/
def rowContribution (usdtwd thbtwd : ℚ) (row : Record) : Metrics :=
  processRow usdtwd thbtwd Metrics.zero row

/-- The amount an Income/Expense row adds to its monthly bucket, as a
function of its frequency label and its converted amount: the converted
amount divided by the month count from `FREQ_TO_MONTHS`, and zero when
the frequency is not in the table. -/
def monthlyPortion (freq : String) (amount : ℚ) : ℚ :=
  if FREQ_TO_MONTHS freq = some 1 then amount
  else if FREQ_TO_MONTHS freq = some 3 then amount / 3
  else if FREQ_TO_MONTHS freq = some 12 then amount / 12
  else 0

/-- The category/frequency dispatch of src/app.py lines 227-241 as a
function of the already-converted amount alone.  Stating that a row's
contribution factors through this function (with `convertCurrency`
applied to the parsed amount exactly once, as its argument) formalizes
"conversion happens exactly once, before bucket accumulation and before
frequency normalization". -/
def bucketDispatch (cat freq : String) (converted : ℚ) : Metrics :=
  if cat = "資產" then ⟨converted, 0, 0, 0⟩
  else if cat = "負債" then ⟨0, converted, 0, 0⟩
  else if cat = "收入" then ⟨0, 0, monthlyPortion freq converted, 0⟩
  else if cat = "支出" then ⟨0, 0, 0, monthlyPortion freq converted⟩
  else Metrics.zero

/-- At least three of the four accumulators are untouched: the
contribution lands in at most one bucket. -/
def touchesAtMostOneBucket (m : Metrics) : Prop :=
  (m.total_liability = 0 ∧ m.monthly_income = 0 ∧ m.monthly_expense = 0) ∨
  (m.total_asset = 0 ∧ m.monthly_income = 0 ∧ m.monthly_expense = 0) ∨
  (m.total_asset = 0 ∧ m.total_liability = 0 ∧ m.monthly_expense = 0) ∨
  (m.total_asset = 0 ∧ m.total_liability = 0 ∧ m.monthly_income = 0)

theorem Metrics.zero_add (m : Metrics) : Metrics.add Metrics.zero m = m := by
  cases m; simp [Metrics.add, Metrics.zero]

theorem Metrics.add_zero (m : Metrics) : Metrics.add m Metrics.zero = m := by
  cases m; simp [Metrics.add, Metrics.zero]

theorem Metrics.add_assoc (a b c : Metrics) :
    Metrics.add (Metrics.add a b) c = Metrics.add a (Metrics.add b c) := by
  cases a; cases b; cases c; simp only [Metrics.add, Metrics.mk.injEq]
  refine ⟨?_, ?_, ?_, ?_⟩ <;> ring

theorem Metrics.add_comm (a b : Metrics) : Metrics.add a b = Metrics.add b a := by
  cases a; cases b; simp only [Metrics.add, Metrics.mk.injEq]
  refine ⟨?_, ?_, ?_, ?_⟩ <;> ring

/-- The loop body adds exactly the row's contribution to the running
accumulators, whatever their current value. -/
theorem processRow_eq_add (u t : ℚ) (m : Metrics) (r : Record) :
    processRow u t m r = Metrics.add m (rowContribution u t r) := by
  obtain ⟨c, a, cu, f⟩ := r
  obtain ⟨m1, m2, m3, m4⟩ := m
  unfold rowContribution processRow
  cases a with
  | none => simp [Metrics.add, Metrics.zero]
  | some a =>
    simp only []
    split_ifs <;> simp [Metrics.add, Metrics.zero]

theorem foldl_processRow (u t : ℚ) (l : List Record) (m : Metrics) :
    l.foldl (processRow u t) m = Metrics.add m (calculate_metrics l u t) := by
  induction l generalizing m with
  | nil => simp [calculate_metrics, Metrics.add_zero]
  | cons r l ih =>
    show (l.foldl (processRow u t) (processRow u t m r)) = _
    rw [ih, processRow_eq_add]
    show _ = Metrics.add m (l.foldl (processRow u t) (processRow u t Metrics.zero r))
    rw [ih, processRow_eq_add, Metrics.zero_add, Metrics.add_assoc]

/-- Peeling one row off the front of the frame. -/
theorem calculate_metrics_cons (u t : ℚ) (r : Record) (l : List Record) :
    calculate_metrics (r :: l) u t =
      Metrics.add (rowContribution u t r) (calculate_metrics l u t) := by
  show (l.foldl (processRow u t) (processRow u t Metrics.zero r)) = _
  rw [foldl_processRow, processRow_eq_add, Metrics.zero_add]

/-- The aggregate of a concatenation is the sum of the aggregates. -/
theorem calculate_metrics_append (u t : ℚ) (l₁ l₂ : List Record) :
    calculate_metrics (l₁ ++ l₂) u t =
      Metrics.add (calculate_metrics l₁ u t) (calculate_metrics l₂ u t) := by
  show (l₁ ++ l₂).foldl (processRow u t) Metrics.zero = _
  rw [List.foldl_append, foldl_processRow]
  rfl

/-- The frequency dictionary only ever yields 1, 3 or 12 months. -/
theorem FREQ_TO_MONTHS_cases (f : String) :
    FREQ_TO_MONTHS f = none ∨ FREQ_TO_MONTHS f = some 1 ∨
    FREQ_TO_MONTHS f = some 3 ∨ FREQ_TO_MONTHS f = some 12 := by
  unfold FREQ_TO_MONTHS
  split_ifs <;> simp

/-- When the frequency is in the dictionary, the monthly portion is the
converted amount divided by the month count. -/
theorem monthlyPortion_some (f : String) (c : ℚ) (n : ℕ)
    (h : FREQ_TO_MONTHS f = some n) : monthlyPortion f c = c / (n : ℚ) := by
  rcases FREQ_TO_MONTHS_cases f with h' | h' | h' | h' <;> rw [h'] at h
  · exact Option.noConfusion h
  all_goals (injection h with hn; subst hn; unfold monthlyPortion; rw [h']; norm_num)

/-- When the frequency is not in the dictionary, the monthly portion is
zero. -/
theorem monthlyPortion_none (f : String) (c : ℚ)
    (h : FREQ_TO_MONTHS f = none) : monthlyPortion f c = 0 := by
  unfold monthlyPortion
  rw [h]
  simp

/-- A row whose amount did not parse contributes nothing. -/
theorem rowContribution_none (u t : ℚ) (r : Record) (h : r.amount = none) :
    rowContribution u t r = Metrics.zero := by
  unfold rowContribution processRow
  rw [h]

/-- Central factoring lemma: a parseable row's contribution is the
category/frequency dispatch applied to the once-converted amount. -/
theorem rowContribution_eq_dispatch (u t a : ℚ) (r : Record) (ha : r.amount = some a) :
    rowContribution u t r =
      bucketDispatch r.category r.frequency (convertCurrency u t r.currency a) := by
  obtain ⟨c, am, cu, f⟩ := r
  cases am with
  | none => exact absurd ha (by simp)
  | some b =>
    have hb : b = a := by simpa using ha
    subst hb
    simp only [rowContribution, processRow, bucketDispatch, monthlyPortion]
    split_ifs <;> simp [Metrics.zero]

/-- C1 (counterexample): a record with the English category label
`"Asset"` and a perfectly parseable amount of 100 TWD does NOT
contribute its converted amount to `total_assets` — `calculate_metrics`
only matches the localized labels, so the row is inert and the whole
aggregate stays zero. -/
theorem C1_counterexample :
    (calculate_metrics [⟨"Asset", some 100, "TWD", ""⟩] (63/2) (24/25)).total_asset ≠ 100 ∧
    calculate_metrics [⟨"Asset", some 100, "TWD", ""⟩] (63/2) (24/25) = Metrics.zero := by
  have h : calculate_metrics [⟨"Asset", some 100, "TWD", ""⟩] (63/2) (24/25) = Metrics.zero := by
    simp +decide only [calculate_metrics, List.foldl, processRow, convertCurrency,
      FREQ_TO_MONTHS, Metrics.zero]
  refine ⟨?_, h⟩
  rw [h]
  simp [Metrics.zero]

/-- C1 (amended): the aggregator recognizes exactly the localized
category labels 資產, 負債, 收入, 支出 and accumulates such a record into
the corresponding bucket (the converted amount for assets/liabilities,
the frequency-normalized converted amount for income/expense); the
English labels `Asset`, `Liability`, `Income`, `Expense` are not
recognized and contribute zero.  Accumulation of a row's contribution
into the running aggregate is the last conjunct. -/
theorem C1_localized_labels_accumulate (u t a : ℚ) (r : Record) (ha : r.amount = some a) :
    (r.category = "資產" →
      rowContribution u t r = ⟨convertCurrency u t r.currency a, 0, 0, 0⟩) ∧
    (r.category = "負債" →
      rowContribution u t r = ⟨0, convertCurrency u t r.currency a, 0, 0⟩) ∧
    (r.category = "收入" →
      rowContribution u t r =
        ⟨0, 0, monthlyPortion r.frequency (convertCurrency u t r.currency a), 0⟩) ∧
    (r.category = "支出" →
      rowContribution u t r =
        ⟨0, 0, 0, monthlyPortion r.frequency (convertCurrency u t r.currency a)⟩) ∧
    (r.category = "Asset" → rowContribution u t r = Metrics.zero) ∧
    (r.category = "Liability" → rowContribution u t r = Metrics.zero) ∧
    (r.category = "Income" → rowContribution u t r = Metrics.zero) ∧
    (r.category = "Expense" → rowContribution u t r = Metrics.zero) ∧
    (∀ l : List Record, calculate_metrics (r :: l) u t =
      Metrics.add (rowContribution u t r) (calculate_metrics l u t)) := by
  rw [rowContribution_eq_dispatch u t a r ha]
  refine ⟨?_, ?_, ?_, ?_, ?_, ?_, ?_, ?_, ?_⟩
  all_goals try (intro hc; rw [hc]; simp +decide [bucketDispatch])
  intro l
  rw [calculate_metrics_cons, rowContribution_eq_dispatch u t a r ha]

/-- Witness for C1: a 資產 row of 100 USD at rate 31.5 adds 3150 to the
asset bucket and nothing else. -/
theorem C1_witness :
    rowContribution (63/2) 1 ⟨"資產", some 100, "USD", ""⟩ = ⟨3150, 0, 0, 0⟩ := by
  have h := (C1_localized_labels_accumulate (63/2) 1 100 ⟨"資產", some 100, "USD", ""⟩ rfl).1 rfl
  rw [h]
  norm_num +decide [convertCurrency]

/-- C2: the parsed amount is converted exactly once — the row's whole
contribution factors through `bucketDispatch` applied to
`convertCurrency usdtwd thbtwd currency amount`, so the conversion
happens before bucket accumulation and before frequency division — and
the conversion multiplies by `usd_to_twd` for USD, by `thb_to_twd` for
THB, and leaves TWD and every unrecognized code unchanged. -/
theorem C2_conversion_exactly_once (u t a : ℚ) (r : Record) (ha : r.amount = some a) :
    rowContribution u t r =
      bucketDispatch r.category r.frequency (convertCurrency u t r.currency a) ∧
    (r.currency = "USD" → convertCurrency u t r.currency a = a * u) ∧
    (r.currency = "THB" → convertCurrency u t r.currency a = a * t) ∧
    (r.currency ≠ "USD" → r.currency ≠ "THB" → convertCurrency u t r.currency a = a) := by
  refine ⟨rowContribution_eq_dispatch u t a r ha, ?_, ?_, ?_⟩
  · intro hc; rw [convertCurrency, if_pos hc]
  · intro hc
    rw [convertCurrency, if_neg, if_pos hc]
    rw [hc]
    simp +decide
  · intro h1 h2
    rw [convertCurrency, if_neg h1, if_neg h2]

/-- Witness for C2: a THB expense of 1000 at rate 0.96 is converted to
960 before the yearly division, contributing 80 to the monthly bucket. -/
theorem C2_witness :
    rowContribution (63/2) (24/25) ⟨"支出", some 1000, "THB", "Yearly"⟩ =
      bucketDispatch "支出" "Yearly" 960 := by
  have h := (C2_conversion_exactly_once (63/2) (24/25) 1000
    ⟨"支出", some 1000, "THB", "Yearly"⟩ rfl).1
  rw [h]
  norm_num +decide [convertCurrency]

/-- C3: an Income/Expense row with a recognized frequency contributes
the converted amount divided by the month count of the period to its
monthly bucket (the divisor acts on the converted amount, never the raw
one); an Income/Expense row whose frequency is absent from the table
contributes zero; and the table maps Monthly/每月 to 1, Quarterly/每季 to
3, Yearly/每年 to 12. -/
theorem C3_frequency_normalization (u t a : ℚ) (r : Record) (ha : r.amount = some a)
    (hc : r.category = "收入" ∨ r.category = "支出") :
    (∀ n : ℕ, FREQ_TO_MONTHS r.frequency = some n →
      rowContribution u t r =
        (if r.category = "收入"
          then ⟨0, 0, convertCurrency u t r.currency a / (n : ℚ), 0⟩
          else ⟨0, 0, 0, convertCurrency u t r.currency a / (n : ℚ)⟩)) ∧
    (FREQ_TO_MONTHS r.frequency = none → rowContribution u t r = Metrics.zero) ∧
    FREQ_TO_MONTHS "Monthly" = some 1 ∧ FREQ_TO_MONTHS "每月" = some 1 ∧
    FREQ_TO_MONTHS "Quarterly" = some 3 ∧ FREQ_TO_MONTHS "每季" = some 3 ∧
    FREQ_TO_MONTHS "Yearly" = some 12 ∧ FREQ_TO_MONTHS "每年" = some 12 := by
  rw [rowContribution_eq_dispatch u t a r ha]
  refine ⟨?_, ?_, by decide, by decide, by decide, by decide, by decide, by decide⟩
  · intro n hn
    rcases hc with hc | hc <;> rw [hc] <;>
      simp +decide [bucketDispatch, monthlyPortion_some r.frequency _ n hn]
  · intro hn
    rcases hc with hc | hc <;> rw [hc] <;>
      simp +decide [bucketDispatch, monthlyPortion_none r.frequency _ hn, Metrics.zero]

/-- Witness for C3: a quarterly income of 30000 TWD contributes
30000 / 3 = 10000 to the monthly income bucket. -/
theorem C3_witness :
    rowContribution 1 1 ⟨"收入", some 30000, "TWD", "Quarterly"⟩ =
      ⟨0, 0, 10000, 0⟩ := by
  have h := (C3_frequency_normalization 1 1 30000
    ⟨"收入", some 30000, "TWD", "Quarterly"⟩ rfl (Or.inl rfl)).1 3 (by decide)
  rw [h]
  norm_num +decide [convertCurrency]

/-- C4: a record whose amount failed to parse is skipped entirely — it
contributes zero to all four totals and the remaining records aggregate
exactly as they would without it.  (`calculate_metrics` is a total Lean
function over `Option`-valued parses, so no data-quality problem can
make it fail: malformed amounts, unknown categories, currencies and
frequencies all fall into zero-contribution branches.) -/
theorem C4_malformed_row_skipped (u t : ℚ) (l₁ l₂ : List Record) (r : Record)
    (h : r.amount = none) :
    calculate_metrics (l₁ ++ r :: l₂) u t = calculate_metrics (l₁ ++ l₂) u t ∧
    rowContribution u t r = Metrics.zero := by
  have hz := rowContribution_none u t r h
  refine ⟨?_, hz⟩
  rw [calculate_metrics_append, calculate_metrics_append, calculate_metrics_cons, hz,
    Metrics.zero_add]

/-- Witness for C4: an unparseable expense row between two valid rows
changes nothing. -/
theorem C4_witness :
    calculate_metrics
        ([⟨"資產", some 7, "TWD", ""⟩] ++ ⟨"支出", none, "TWD", "Monthly"⟩ ::
          [⟨"負債", some 5, "TWD", ""⟩]) 1 1 =
      calculate_metrics ([⟨"資產", some 7, "TWD", ""⟩] ++ [⟨"負債", some 5, "TWD", ""⟩]) 1 1 :=
  (C4_malformed_row_skipped 1 1 [⟨"資產", some 7, "TWD", ""⟩] [⟨"負債", some 5, "TWD", ""⟩]
    ⟨"支出", none, "TWD", "Monthly"⟩ rfl).1

/-- C5: every record touches at most one of the four buckets, and a
record whose category is none of the four recognized labels (for
example `"Other"`) contributes zero to all buckets, whatever its
amount, currency and frequency. -/
theorem C5_at_most_one_bucket (u t : ℚ) (r : Record) :
    touchesAtMostOneBucket (rowContribution u t r) ∧
    (r.category ≠ "資產" → r.category ≠ "負債" → r.category ≠ "收入" →
      r.category ≠ "支出" → rowContribution u t r = Metrics.zero) := by
  constructor
  · cases ha : r.amount with
    | none =>
      rw [rowContribution_none u t r ha]
      left
      exact ⟨rfl, rfl, rfl⟩
    | some a =>
      rw [rowContribution_eq_dispatch u t a r ha]
      unfold bucketDispatch touchesAtMostOneBucket
      split_ifs <;> simp [Metrics.zero]
  · intro h1 h2 h3 h4
    cases ha : r.amount with
    | none => exact rowContribution_none u t r ha
    | some a =>
      rw [rowContribution_eq_dispatch u t a r ha]
      unfold bucketDispatch
      rw [if_neg h1, if_neg h2, if_neg h3, if_neg h4]

/-- Witness for C5: an `"Other"` row with a large USD amount and a
yearly frequency is completely inert. -/
theorem C5_witness :
    rowContribution (63/2) (24/25) ⟨"Other", some 999999, "USD", "Yearly"⟩ = Metrics.zero :=
  (C5_at_most_one_bucket (63/2) (24/25) ⟨"Other", some 999999, "USD", "Yearly"⟩).2
    (by decide) (by decide) (by decide) (by decide)

/-- C6: aggregation is order-independent — permuting the record set
leaves all four totals unchanged (the embedding computes over ℚ, i.e.
exact rational arithmetic). -/
theorem C6_order_independence (u t : ℚ) {l₁ l₂ : List Record} (h : l₁.Perm l₂) :
    calculate_metrics l₁ u t = calculate_metrics l₂ u t := by
  induction h with
  | nil => rfl
  | cons x _ ih => rw [calculate_metrics_cons, calculate_metrics_cons, ih]
  | swap x y l =>
    rw [calculate_metrics_cons, calculate_metrics_cons, calculate_metrics_cons,
      calculate_metrics_cons, ← Metrics.add_assoc, ← Metrics.add_assoc,
      Metrics.add_comm (rowContribution u t y) (rowContribution u t x)]
  | trans _ _ ih₁ ih₂ => rw [ih₁, ih₂]

/-- Witness for C6: swapping two concrete rows yields the same totals. -/
theorem C6_witness :
    calculate_metrics [⟨"收入", some 3, "TWD", "Monthly"⟩, ⟨"資產", some 7, "USD", ""⟩] (63/2) 1 =
      calculate_metrics [⟨"資產", some 7, "USD", ""⟩, ⟨"收入", some 3, "TWD", "Monthly"⟩] (63/2) 1 :=
  C6_order_independence (63/2) 1 (List.Perm.swap _ _ _)

/-- C7: aggregating an empty record set returns (0, 0, 0, 0) for every
pair of exchange rates (and, being a total function, signals no
error). -/
theorem C7_empty_input (u t : ℚ) : calculate_metrics [] u t = Metrics.zero := rfl

/-- C8: the derived values are recomputed from the four returned base
totals with no independent state: `net_worth` is exactly
`total_assets - total_liabilities` and `monthly_net_flow` is exactly
`monthly_income - monthly_expense` of the aggregation result. -/
theorem C8_derived_values (df : List Record) (u t : ℚ) :
    net_worth (calculate_metrics df u t) =
      (calculate_metrics df u t).total_asset - (calculate_metrics df u t).total_liability ∧
    monthly_net_flow (calculate_metrics df u t) =
      (calculate_metrics df u t).monthly_income - (calculate_metrics df u t).monthly_expense :=
  ⟨rfl, rfl⟩

/-- C9 (counterexample): the end-to-end scenario written with the
English category labels, exactly as stated, does not produce
`total_assets = 1445000` — the aggregator recognizes only the localized
category labels, so every row is inert and all four totals are zero. -/
theorem C9_counterexample :
    (calculate_metrics
        [⟨"Asset", some 500000, "TWD", ""⟩,
         ⟨"Asset", some 30000, "USD", ""⟩,
         ⟨"Liability", some 8000000, "TWD", ""⟩,
         ⟨"Income", some 70000, "TWD", "Monthly"⟩,
         ⟨"Expense", some 40000, "TWD", "Yearly"⟩] (63/2) (24/25)).total_asset ≠ 1445000 ∧
    calculate_metrics
        [⟨"Asset", some 500000, "TWD", ""⟩,
         ⟨"Asset", some 30000, "USD", ""⟩,
         ⟨"Liability", some 8000000, "TWD", ""⟩,
         ⟨"Income", some 70000, "TWD", "Monthly"⟩,
         ⟨"Expense", some 40000, "TWD", "Yearly"⟩] (63/2) (24/25) = Metrics.zero := by
  have h : calculate_metrics
      [⟨"Asset", some 500000, "TWD", ""⟩,
       ⟨"Asset", some 30000, "USD", ""⟩,
       ⟨"Liability", some 8000000, "TWD", ""⟩,
       ⟨"Income", some 70000, "TWD", "Monthly"⟩,
       ⟨"Expense", some 40000, "TWD", "Yearly"⟩] (63/2) (24/25) = Metrics.zero := by
    simp +decide only [calculate_metrics, List.foldl, processRow, convertCurrency,
      FREQ_TO_MONTHS, Metrics.zero]
  refine ⟨?_, h⟩
  rw [h]
  simp [Metrics.zero]

/-- C9 (amended): the same scenario with the category labels written in
the aggregator's recognized localized form (資產, 負債, 收入, 支出) and
`usd_to_twd = 31.5` yields total assets 500000 + 945000 = 1445000,
total liabilities 8000000, monthly income 70000, monthly expense
40000/12 = 10000/3 (≈ 3333.33), net worth -6555000 and net monthly cash
flow 200000/3 (≈ 66666.67). -/
theorem C9_end_to_end_localized :
    calculate_metrics
        [⟨"資產", some 500000, "TWD", ""⟩,
         ⟨"資產", some 30000, "USD", ""⟩,
         ⟨"負債", some 8000000, "TWD", ""⟩,
         ⟨"收入", some 70000, "TWD", "Monthly"⟩,
         ⟨"支出", some 40000, "TWD", "Yearly"⟩] (63/2) (24/25) =
      ⟨1445000, 8000000, 70000, 10000/3⟩ ∧
    net_worth ⟨1445000, 8000000, 70000, 10000/3⟩ = -6555000 ∧
    monthly_net_flow ⟨1445000, 8000000, 70000, 10000/3⟩ = 200000/3 := by
  refine ⟨?_, by norm_num [net_worth], by norm_num [monthly_net_flow]⟩
  simp +decide only [calculate_metrics, List.foldl, processRow, convertCurrency,
    FREQ_TO_MONTHS, Metrics.zero]
  norm_num

/-- C10: the frequency field of a 資產 (Asset) or 負債 (Liability) record
is never consulted — replacing it by any value whatsoever (Yearly,
Quarterly, anything) leaves all four aggregate totals unchanged, and the
full converted amount is accumulated with no frequency division. -/
theorem C10_asset_liability_frequency_irrelevant (u t : ℚ) (l₁ l₂ : List Record)
    (r : Record) (f : String) (hc : r.category = "資產" ∨ r.category = "負債") :
    calculate_metrics (l₁ ++ { r with frequency := f } :: l₂) u t =
      calculate_metrics (l₁ ++ r :: l₂) u t := by
  have hr : rowContribution u t { r with frequency := f } = rowContribution u t r := by
    cases ha : r.amount with
    | none =>
      rw [rowContribution_none u t _ rfl, rowContribution_none u t r ha]
    | some a =>
      rw [rowContribution_eq_dispatch u t a _ rfl, rowContribution_eq_dispatch u t a r ha]
      show bucketDispatch r.category f _ = bucketDispatch r.category r.frequency _
      rcases hc with hc | hc <;> rw [hc] <;> simp +decide [bucketDispatch]
  rw [calculate_metrics_append, calculate_metrics_append, calculate_metrics_cons,
    calculate_metrics_cons, hr]

/-- Witness for C10: stamping a yearly frequency onto an asset row does
not change the aggregate. -/
theorem C10_witness :
    calculate_metrics
        ([] ++ { (⟨"資產", some 5, "USD", ""⟩ : Record) with frequency := "Yearly" } ::
          [⟨"收入", some 9, "TWD", "Monthly"⟩]) (63/2) 1 =
      calculate_metrics ([] ++ (⟨"資產", some 5, "USD", ""⟩ : Record) ::
          [⟨"收入", some 9, "TWD", "Monthly"⟩]) (63/2) 1 :=
  C10_asset_liability_frequency_irrelevant (63/2) 1 [] [⟨"收入", some 9, "TWD", "Monthly"⟩]
    ⟨"資產", some 5, "USD", ""⟩ "Yearly" (Or.inl rfl)
